import Mathlib

/-!
Verification of the `bevy_light_2d` 2D lighting subsystem.

The development shallowly embeds the Rust source of the repository:
  * `src/render/lighting/pipeline.rs` — the lighting pipeline / bind-group
    layout builder (`LightingPipeline::from_world`);
  * `src/plugin.rs` — the `Light2dPlugin` plugin registration (`build` and
    `finish`), including the render-graph node/edge registration.

Parts of the repository that are referenced by the above but whose source
files are not available (the extraction systems of `render/extract.rs`, the
per-pixel WGSL lighting shader `render/lighting/lighting.wgsl`, and the
light/occluder component types of `light.rs`) are modelled from the
specification; the doc comment of each such definition says so explicitly.

Host-engine (bevy) behaviour that the embedded code calls into —
`init_resource` semantics, `GpuArrayBuffer::binding_layout`, the default
`Core2d` render-graph — is embedded according to bevy 0.13's documented
behaviour and marked as such.
-/

/-! ## Data model: GPU binding types (`bevy::render::render_resource`) -/

/-- Texture sample types (mirror of wgpu `TextureSampleType`); only the
float case carries the `filterable` flag used by the source. -/
inductive TextureSampleType where
  | float (filterable : Bool)
  | depth
  | sint
  | uint
deriving DecidableEq, Repr

/-- Sampler binding types (mirror of wgpu `SamplerBindingType`). -/
inductive SamplerBindingType where
  | filtering
  | nonFiltering
  | comparison
deriving DecidableEq, Repr

/-- The record types the lighting pass binds as buffer contents: the view
uniform and the three extracted lighting records. -/
inductive RecordType where
  | viewUniform
  | extractedAmbientLight2d
  | extractedPointLight2d
  | extractedCircularOccluder2d
deriving DecidableEq, Repr

/-- Binding types occurring in the lighting bind-group layout: a 2D texture,
a sampler, a (possibly dynamically offset) uniform buffer of a given record
type, or a read-only storage buffer of a given record type. -/
inductive BindingType where
  | texture2d (sampleType : TextureSampleType)
  | sampler (ty : SamplerBindingType)
  | uniformBuffer (record : RecordType) (hasDynamicOffset : Bool)
  | storageBufferReadOnly (record : RecordType)
deriving DecidableEq, Repr

/-- Shader stages a binding is visible to (only the cases used here). -/
inductive ShaderStages where
  | fragment
  | vertex
  | vertexFragment
deriving DecidableEq, Repr

/-- One entry of a bind-group layout: slot index, visibility, binding type. -/
structure BindGroupLayoutEntry where
  binding : Nat
  visibility : ShaderStages
  ty : BindingType
deriving DecidableEq, Repr

/-- A bind-group layout: a label and its ordered entries. -/
structure BindGroupLayout where
  label : String
  entries : List BindGroupLayoutEntry
deriving DecidableEq, Repr

/-- Mirror of `BindGroupLayoutEntries::sequential`: assigns consecutive slot
indices `0, 1, 2, …` to the given binding types, all with the same
visibility. -/
def BindGroupLayoutEntries.sequential (visibility : ShaderStages)
    (types : List BindingType) : List BindGroupLayoutEntry :=
  (types.enum).map (fun p => ⟨p.1, visibility, p.2⟩)

/-- The capability of a render device the source's layout depends on:
`GpuArrayBuffer::binding_layout` switches on storage-buffer support.
Embeds the `RenderDevice` argument of `from_world`. -/
structure RenderDevice where
  supportsStorageBuffers : Bool
deriving DecidableEq, Repr

/-- Embedding of bevy's `GpuArrayBuffer::<T>::binding_layout(render_device)`
(host-engine behaviour, bevy 0.13): a read-only storage buffer on devices
with storage-buffer support, otherwise a dynamically offset uniform buffer
(the batched-uniform fallback). -/
def GpuArrayBuffer.bindingLayout (record : RecordType) (dev : RenderDevice) :
    BindingType :=
  if dev.supportsStorageBuffers then
    BindingType.storageBufferReadOnly record
  else
    BindingType.uniformBuffer record true

/-! ## `LightingPipeline::from_world`: the bind-group layout -/

/-- Label constant `LIGHTING_BIND_GROUP_LAYOUT` from `pipeline.rs`. -/
def LIGHTING_BIND_GROUP_LAYOUT : String := "lighting_bind_group_layout"

/-- Label constant `LIGHTING_PIPELINE` from `pipeline.rs`. -/
def LIGHTING_PIPELINE : String := "lighting_pipeline"

/-- The bind-group layout built by `LightingPipeline::from_world`
(`pipeline.rs` lines 34–47): sequential fragment-stage entries for the
color texture, its sampler, the view uniform, the ambient-light uniform,
and the two `GpuArrayBuffer` bindings. -/
def lightingBindGroupLayout (dev : RenderDevice) : BindGroupLayout :=
  { label := LIGHTING_BIND_GROUP_LAYOUT
    entries := BindGroupLayoutEntries.sequential ShaderStages.fragment
      [ BindingType.texture2d (TextureSampleType.float true),
        BindingType.sampler SamplerBindingType.filtering,
        BindingType.uniformBuffer RecordType.viewUniform true,
        BindingType.uniformBuffer RecordType.extractedAmbientLight2d true,
        GpuArrayBuffer.bindingLayout RecordType.extractedPointLight2d dev,
        GpuArrayBuffer.bindingLayout RecordType.extractedCircularOccluder2d dev ] }

/-- The record type bound by a buffer-like binding, if any. -/
def BindingType.boundRecord : BindingType → Option RecordType
  | BindingType.uniformBuffer r _ => some r
  | BindingType.storageBufferReadOnly r => some r
  | _ => none

/-- Whether a binding is an array-buffer style binding (one of the two
shapes `GpuArrayBuffer::binding_layout` can produce). -/
def BindingType.isArrayBufferFor (t : BindingType) (r : RecordType) : Prop :=
  t = BindingType.storageBufferReadOnly r ∨ t = BindingType.uniformBuffer r true

instance (t : BindingType) (r : RecordType) :
    Decidable (t.isArrayBufferFor r) := by
  unfold BindingType.isArrayBufferFor
  infer_instance

/-! ## `LightingPipeline::from_world`: the render pipeline descriptor -/

/-- Texture formats (only the cases relevant to the descriptor). -/
inductive TextureFormat where
  | rgba8UnormSrgb
  | bgra8UnormSrgb
deriving DecidableEq, Repr

/-- Embedding of `TextureFormat::bevy_default()`: the default display color
format (host-engine constant; `Rgba8UnormSrgb` on non-web platforms). -/
def TextureFormat.bevyDefault : TextureFormat := TextureFormat.rgba8UnormSrgb

/-- Color write mask (mirror of wgpu `ColorWrites`; the source uses `ALL`). -/
inductive ColorWrites where
  | all
  | none
  | red
  | green
  | blue
  | alpha
deriving DecidableEq, Repr

/-- Blend states: the source sets `blend: None`, so an option of an opaque
blend-state token suffices. -/
inductive BlendState where
  | alphaBlending
  | premultipliedAlphaBlending
deriving DecidableEq, Repr

/-- Mirror of wgpu `ColorTargetState`. -/
structure ColorTargetState where
  format : TextureFormat
  blend : Option BlendState
  writeMask : ColorWrites
deriving DecidableEq, Repr

/-- Handle of a shader asset. The lighting WGSL shader is loaded by
`Light2dPlugin::build` under the internal handle `LIGHTING_SHADER`. -/
structure ShaderHandle where
  id : Nat
deriving DecidableEq, Repr

/-- The `LIGHTING_SHADER` internal asset handle used by both `plugin.rs`
and `pipeline.rs`. -/
def LIGHTING_SHADER : ShaderHandle := ⟨0⟩

/-- Vertex stages used by the descriptor: the source uses bevy's
`fullscreen_shader_vertex_state()` and nothing else. -/
inductive VertexState where
  | fullscreenShaderVertexState
  | custom (shader : ShaderHandle) (entryPoint : String)
deriving DecidableEq, Repr

/-- Mirror of `FragmentState` as used by the source. -/
structure FragmentState where
  shader : ShaderHandle
  shaderDefs : List String
  entryPoint : String
  targets : List (Option ColorTargetState)
deriving DecidableEq, Repr

/-- Mirror of wgpu `PrimitiveState`; `default` is the triangle-list default
state used by the source. -/
inductive PrimitiveState where
  | default
  | custom
deriving DecidableEq, Repr

/-- Depth/stencil state token; the source sets `depth_stencil: None`. -/
inductive DepthStencilState where
  | custom
deriving DecidableEq, Repr

/-- Mirror of wgpu `MultisampleState`: sample count, mask, alpha-to-coverage.
`MultisampleState::default()` is 1 sample, full mask, no alpha-to-coverage. -/
structure MultisampleState where
  count : Nat
  mask : Nat
  alphaToCoverageEnabled : Bool
deriving DecidableEq, Repr

/-- Embedding of `MultisampleState::default()`. -/
def MultisampleState.default : MultisampleState :=
  { count := 1, mask := 18446744073709551615, alphaToCoverageEnabled := false }

/-- Mirror of `RenderPipelineDescriptor` as used by the source. -/
structure RenderPipelineDescriptor where
  label : Option String
  layout : List BindGroupLayout
  vertex : VertexState
  fragment : Option FragmentState
  primitive : PrimitiveState
  depthStencil : Option DepthStencilState
  multisample : MultisampleState
  pushConstantRanges : List Nat
deriving DecidableEq, Repr

/-- The render pipeline descriptor queued by `LightingPipeline::from_world`
(`pipeline.rs` lines 51–72). -/
def lightingPipelineDescriptor (dev : RenderDevice) : RenderPipelineDescriptor :=
  { label := some LIGHTING_PIPELINE
    layout := [lightingBindGroupLayout dev]
    vertex := VertexState.fullscreenShaderVertexState
    fragment := some
      { shader := LIGHTING_SHADER
        shaderDefs := []
        entryPoint := "fragment"
        targets := [some
          { format := TextureFormat.bevyDefault
            blend := none
            writeMask := ColorWrites.all }] }
    primitive := PrimitiveState.default
    depthStencil := none
    multisample := MultisampleState.default
    pushConstantRanges := [] }

/-! ## Theorems for C1 and C2 -/

/-! ## Pipeline cache and resource initialization (`plugin.rs` `finish`) -/

/-- Samplers created by the source; `from_world` creates exactly one, from
`SamplerDescriptor::default()`. -/
inductive Sampler where
  | defaultSampler
deriving DecidableEq, Repr

/-- Embedding of bevy's `PipelineCache`: the ordered list of queued render
pipeline descriptors. A `CachedRenderPipelineId` is the index at which the
descriptor was queued. -/
structure PipelineCache where
  queued : List RenderPipelineDescriptor
deriving DecidableEq, Repr

/-- Embedding of `PipelineCache::queue_render_pipeline`: appends the
descriptor and returns its cached id. -/
def PipelineCache.queueRenderPipeline (c : PipelineCache)
    (d : RenderPipelineDescriptor) : Nat × PipelineCache :=
  (c.queued.length, { queued := c.queued ++ [d] })

/-- The `LightingPipeline` resource of `pipeline.rs`: bind-group layout,
sampler, cached pipeline id. -/
structure LightingPipeline where
  layout : BindGroupLayout
  sampler : Sampler
  pipelineId : Nat
deriving DecidableEq, Repr

/-- The slice of the render world `from_world` and `init_resource` touch:
the render device, the pipeline cache, and the (optional) already-present
`LightingPipeline` resource. -/
structure RenderWorld where
  device : RenderDevice
  pipelineCache : PipelineCache
  lightingPipeline : Option LightingPipeline
deriving DecidableEq, Repr

/-- Embedding of `LightingPipeline::from_world` (`pipeline.rs` lines
30–79): builds the bind-group layout, creates a default sampler, queues the
lighting render pipeline, and returns the resource plus the updated world. -/
def LightingPipeline.fromWorld (w : RenderWorld) : LightingPipeline × RenderWorld :=
  let layout := lightingBindGroupLayout w.device
  let queued := w.pipelineCache.queueRenderPipeline (lightingPipelineDescriptor w.device)
  (⟨layout, Sampler.defaultSampler, queued.1⟩,
    { w with pipelineCache := queued.2 })

/-- Embedding of `render_app.init_resource::<LightingPipeline>()` as called
by `Light2dPlugin::finish` (`plugin.rs` lines 64–70), with bevy's documented
`init_resource` semantics: if the resource already exists the world is left
untouched, otherwise the resource is built with `FromWorld` and inserted. -/
def RenderWorld.initLightingPipeline (w : RenderWorld) : RenderWorld :=
  match w.lightingPipeline with
  | some _ => w
  | none =>
    let rw := LightingPipeline.fromWorld w
    { rw.2 with lightingPipeline := some rw.1 }

/-! ## Render-graph registration (`plugin.rs` `build`, lines 60–61) -/

/-- Labels of the render-graph nodes relevant to the `Core2d` graph: bevy's
built-in nodes plus the `LightingPass` label added by the plugin. -/
inductive NodeLabel where
  | mainPass
  | tonemapping
  | endMainPassPostProcessing
  | upscaling
  | lightingPass
deriving DecidableEq, Repr

/-- Whether a built-in node is a post-processing node running after the main
pass in the `Core2d` graph. -/
def NodeLabel.isPostProcessing : NodeLabel → Bool
  | NodeLabel.tonemapping => true
  | NodeLabel.endMainPassPostProcessing => true
  | NodeLabel.upscaling => true
  | _ => false

/-- A render (sub-)graph: its nodes and its directed ordering edges. -/
structure RenderGraph where
  nodes : List NodeLabel
  edges : List (NodeLabel × NodeLabel)
deriving DecidableEq, Repr

/-- Embedding of `add_render_graph_node`: registers a node label. -/
def RenderGraph.addRenderGraphNode (g : RenderGraph) (n : NodeLabel) :
    RenderGraph :=
  { g with nodes := g.nodes ++ [n] }

/-- Embedding of `add_render_graph_edge`: adds the ordering edge `a` before
`b`. -/
def RenderGraph.addRenderGraphEdge (g : RenderGraph) (a b : NodeLabel) :
    RenderGraph :=
  { g with edges := g.edges ++ [(a, b)] }

/-- The host engine's default `Core2d` graph (bevy 0.13): main pass,
tonemapping, end-main-pass post-processing and upscaling nodes, chained in
that order by edges. -/
def core2dGraph : RenderGraph :=
  { nodes := [NodeLabel.mainPass, NodeLabel.tonemapping,
      NodeLabel.endMainPassPostProcessing, NodeLabel.upscaling]
    edges := [(NodeLabel.mainPass, NodeLabel.tonemapping),
      (NodeLabel.tonemapping, NodeLabel.endMainPassPostProcessing),
      (NodeLabel.endMainPassPostProcessing, NodeLabel.upscaling)] }

/-- The `Core2d` graph after `Light2dPlugin::build` (`plugin.rs` lines
60–61): the plugin adds the `LightingPass` node and the single edge
`MainPass → LightingPass`, and nothing else. -/
def light2dCore2dGraph : RenderGraph :=
  (core2dGraph.addRenderGraphNode NodeLabel.lightingPass).addRenderGraphEdge
    NodeLabel.mainPass NodeLabel.lightingPass

/-- A valid schedule of a render graph: a duplicate-free sequence containing
exactly the graph's nodes and respecting every ordering edge. -/
def RenderGraph.validSchedule (g : RenderGraph) (s : List NodeLabel) : Prop :=
  s.Nodup ∧ (∀ n ∈ s, n ∈ g.nodes) ∧ (∀ n ∈ g.nodes, n ∈ s) ∧
    ∀ e ∈ g.edges, s.indexOf e.1 < s.indexOf e.2

instance (g : RenderGraph) (s : List NodeLabel) :
    Decidable (g.validSchedule s) := by
  unfold RenderGraph.validSchedule
  infer_instance

/-- The property claimed for C4: in every valid schedule of the graph that
`Light2dPlugin::build` produces, the lighting pass runs before every
post-processing node. -/
def lightingBeforePostProcessing : Prop :=
  ∀ s : List NodeLabel, light2dCore2dGraph.validSchedule s →
    ∀ p ∈ light2dCore2dGraph.nodes, p.isPostProcessing = true →
      s.indexOf NodeLabel.lightingPass < s.indexOf p

/-! ## Light scene model and extraction stage

The component types (`light.rs`) and the extraction systems
(`render/extract.rs`) are referenced by `plugin.rs` and `pipeline.rs` but
their source files are not available; they are modelled from the
specification (sections 3, 4.1 and 7c). Scalars are rationals (exact
stand-ins for the linear floating-point values of the source). -/

/-- A 2D world-space vector/position with rational coordinates. -/
structure Vec2 where
  x : ℚ
  y : ℚ
deriving DecidableEq, Repr

/-- Componentwise difference of two vectors. -/
def Vec2.sub (a b : Vec2) : Vec2 := ⟨a.x - b.x, a.y - b.y⟩

/-- Componentwise sum of two vectors. -/
def Vec2.add (a b : Vec2) : Vec2 := ⟨a.x + b.x, a.y + b.y⟩

/-- Scalar multiple of a vector. -/
def Vec2.smul (t : ℚ) (v : Vec2) : Vec2 := ⟨t * v.x, t * v.y⟩

/-- Dot product. -/
def Vec2.dot (a b : Vec2) : ℚ := a.x * b.x + a.y * b.y

/-- Squared euclidean distance between two points. -/
def Vec2.distSq (a b : Vec2) : ℚ := (a.sub b).dot (a.sub b)

/-- A linear RGB color with rational components. -/
structure Color where
  r : ℚ
  g : ℚ
  b : ℚ
deriving DecidableEq, Repr

/-- White, the color `(1, 1, 1)`. -/
def Color.white : Color := ⟨1, 1, 1⟩

/-- Black, the color `(0, 0, 0)`. -/
def Color.black : Color := ⟨0, 0, 0⟩

/-- Componentwise sum of colors (light accumulation). -/
def Color.add (c d : Color) : Color := ⟨c.r + d.r, c.g + d.g, c.b + d.b⟩

/-- Componentwise product of colors (multiplicative modulation). -/
def Color.mul (c d : Color) : Color := ⟨c.r * d.r, c.g * d.g, c.b * d.b⟩

/-- Scalar multiple of a color (intensity scaling). -/
def Color.smul (t : ℚ) (c : Color) : Color := ⟨t * c.r, t * c.g, t * c.b⟩

/-- Modelled from the spec: the `AmbientLight2d` component of `light.rs`
(spec §3) — a color and an intensity applied uniformly to every pixel. -/
structure AmbientLight2d where
  color : Color
  intensity : ℚ
deriving DecidableEq, Repr

/-- Modelled from the spec: the `PointLight2d` component of `light.rs`
(spec §3) — color, intensity, and radius of influence; the world position
comes from the owning entity's transform. -/
structure PointLight2d where
  color : Color
  intensity : ℚ
  radius : ℚ
deriving DecidableEq, Repr

/-- Modelled from the spec: the `CircularOccluder2d` component of
`light.rs` (spec §3) — an opaque disc of the given radius at the owning
entity's transform. -/
structure CircularOccluder2d where
  radius : ℚ
deriving DecidableEq, Repr

/-- Modelled from the spec: the GPU-shaped `ExtractedAmbientLight2d` record
of `render/extract.rs` (spec §3). -/
structure ExtractedAmbientLight2d where
  color : Color
  intensity : ℚ
deriving DecidableEq, Repr

/-- Modelled from the spec: the GPU-shaped `ExtractedPointLight2d` record
of `render/extract.rs` (spec §3): position, color, intensity, radius. -/
structure ExtractedPointLight2d where
  position : Vec2
  color : Color
  intensity : ℚ
  radius : ℚ
deriving DecidableEq, Repr

/-- Modelled from the spec: the GPU-shaped `ExtractedCircularOccluder2d`
record of `render/extract.rs` (spec §3): position and radius. -/
structure ExtractedCircularOccluder2d where
  position : Vec2
  radius : ℚ
deriving DecidableEq, Repr

/-- A scene entity as the extraction stage sees it: a world transform
(translation only, the part the records need) plus optional light/occluder
components (spec §4.1, §6). -/
structure Entity where
  transform : Vec2
  ambient : Option AmbientLight2d
  pointLight : Option PointLight2d
  circularOccluder : Option CircularOccluder2d
deriving DecidableEq, Repr

/-- Modelled from the spec: per-entity extraction of a point light (spec
§4.1), clamping negative radius and intensity to zero (spec §7c). -/
def extractPointLight (t : Vec2) (l : PointLight2d) : ExtractedPointLight2d :=
  ⟨t, l.color, max 0 l.intensity, max 0 l.radius⟩

/-- Modelled from the spec: per-entity extraction of a circular occluder
(spec §4.1), clamping negative radius to zero (spec §7c). -/
def extractCircularOccluder (t : Vec2) (o : CircularOccluder2d) :
    ExtractedCircularOccluder2d :=
  ⟨t, max 0 o.radius⟩

/-- Modelled from the spec: extraction of an ambient light record (spec
§4.1), clamping negative intensity to zero (spec §7c). -/
def extractAmbientLight (a : AmbientLight2d) : ExtractedAmbientLight2d :=
  ⟨a.color, max 0 a.intensity⟩

/-- Modelled from the spec: the `extract_point_lights` system of
`render/extract.rs` — one record per entity carrying a point-light
component, in scene order (spec §4.1). -/
def extract_point_lights (scene : List Entity) : List ExtractedPointLight2d :=
  scene.filterMap (fun e => e.pointLight.map (extractPointLight e.transform))

/-- Modelled from the spec: the `extract_circular_occluders` system of
`render/extract.rs` — one record per entity carrying an occluder component,
in scene order (spec §4.1). -/
def extract_circular_occluders (scene : List Entity) :
    List ExtractedCircularOccluder2d :=
  scene.filterMap (fun e => e.circularOccluder.map (extractCircularOccluder e.transform))

/-- Modelled from the spec: the `extract_ambient_lights` system of
`render/extract.rs` — one uniform record; with no ambient entity it emits
the neutral record (white at intensity one, the multiplicative identity);
with several, the first wins (a deterministic reduction, spec §4.1/§9). -/
def extract_ambient_lights (scene : List Entity) : ExtractedAmbientLight2d :=
  match scene.filterMap (fun e => e.ambient) with
  | [] => ⟨Color.white, 1⟩
  | a :: _ => extractAmbientLight a

/-- The whole extraction stage output for one frame: the ambient uniform
record and the two growable array buffers (spec §4.1). -/
def extractFrame (scene : List Entity) :
    ExtractedAmbientLight2d × List ExtractedPointLight2d ×
      List ExtractedCircularOccluder2d :=
  (extract_ambient_lights scene, extract_point_lights scene,
    extract_circular_occluders scene)

/-! ## Lighting shader algorithm

The per-pixel WGSL shader (`render/lighting/lighting.wgsl`) is loaded by
`plugin.rs` and compiled by `pipeline.rs`, but its source file is not
available; the per-pixel algorithm is modelled from the specification
(section 4.4) as a pure function of the pixel position and the bound
records. -/

/-- Modelled from the spec: the distance/radius attenuation of a point
light (spec §4.4c) — a continuous falloff that equals one at distance zero,
decreases monotonically, and reaches exactly zero at the radius, with a
hard cutoff of zero at and beyond the radius (spec §4.4b). Stated over any
linear ordered field; the shader uses it at rational/real scalars. -/
def attenuation {α : Type} [LinearOrderedField α] (radius d : α) : α :=
  if radius ≤ d then 0 else (1 - d ^ 2 / radius ^ 2) ^ 2

/-- Modelled from the spec: the same attenuation computed from squared
distance and squared radius, the form a shader evaluates to avoid a square
root; agrees with `attenuation` on nonnegative inputs
(`attenuationFromSq_eq`). -/
def attenuationFromSq {α : Type} [LinearOrderedField α] (radiusSq dSq : α) : α :=
  if radiusSq ≤ dSq then 0 else (1 - dSq / radiusSq) ^ 2

/-- Clamp a scalar into `[0, 1]` (spec §4.4 step 5). -/
def clamp01Q (q : ℚ) : ℚ := max 0 (min 1 q)

/-- Componentwise clamp of a color into the valid output range. -/
def Color.clamp01 (c : Color) : Color := ⟨clamp01Q c.r, clamp01Q c.g, clamp01Q c.b⟩

/-- Modelled from the spec: squared distance from point `c` to the line
segment from `a` to `b` — the clamped-projection form of the occlusion
test's "distance from occluder center to the segment" (spec §4.4d); the
clamp of the projection parameter to `[0, 1]` realises "occluder lies
between light and pixel, not beyond the pixel nor behind the light". -/
def distSqToSegment (a b c : Vec2) : ℚ :=
  let ab := b.sub a
  let len2 := ab.dot ab
  if len2 = 0 then c.distSq a
  else
    let t := max 0 (min 1 (((c.sub a).dot ab) / len2))
    c.distSq (a.add (Vec2.smul t ab))

/-- Modelled from the spec: whether the segment from `a` to `b` intersects
the open disc of the given radius centred at `center` (spec §4.4d). -/
def segmentDiscIntersects (a b center : Vec2) (radius : ℚ) : Bool :=
  decide (distSqToSegment a b center < radius ^ 2)

/-- Modelled from the spec: a point light's unoccluded contribution at a
pixel — color times intensity times attenuation of the light-to-pixel
distance (spec §4.4e, with §4.4b/c folded into `attenuationFromSq`). -/
def unoccludedContribution (light : ExtractedPointLight2d) (pixel : Vec2) :
    Color :=
  Color.smul
    (light.intensity *
      attenuationFromSq (light.radius ^ 2) (light.position.distSq pixel))
    light.color

/-- Modelled from the spec: a point light's contribution at a pixel under
binary occlusion — zero when any occluder disc intersects the
light-to-pixel segment, the unoccluded contribution otherwise (spec §4.4d). -/
def lightContribution (light : ExtractedPointLight2d) (pixel : Vec2)
    (occluders : List ExtractedCircularOccluder2d) : Color :=
  if (occluders.any fun o =>
      segmentDiscIntersects light.position pixel o.position o.radius) = true then
    Color.black
  else
    unoccludedContribution light pixel

/-- Modelled from the spec: the accumulated light at a pixel — ambient
color times ambient intensity, plus every point light's (possibly
occluded) contribution (spec §4.4 steps 3–4). -/
def accumulatedLight (ambient : ExtractedAmbientLight2d)
    (lights : List ExtractedPointLight2d)
    (occluders : List ExtractedCircularOccluder2d) (pixel : Vec2) : Color :=
  (lights.map fun l => lightContribution l pixel occluders).foldr Color.add
    (Color.smul ambient.intensity ambient.color)

/-- Modelled from the spec: the per-pixel shader output — the sampled scene
color modulated by the accumulated light, clamped to the valid output range
(spec §4.4 step 5). -/
def shadePixel (sceneColor : Color) (ambient : ExtractedAmbientLight2d)
    (lights : List ExtractedPointLight2d)
    (occluders : List ExtractedCircularOccluder2d) (pixel : Vec2) : Color :=
  Color.clamp01 (Color.mul sceneColor (accumulatedLight ambient lights occluders pixel))

/-! ## The plugin (`plugin.rs`): `build` and `finish` -/

/-- Component types `build` registers with `register_type`. -/
inductive RegisteredType where
  | ambientLight2d
  | pointLight2d
  | circularOccluder2d
deriving DecidableEq, Repr

/-- Sub-plugins `build` adds: the ambient uniform-component plugin and the
two GPU-component-array-buffer plugins. -/
inductive SubPlugin where
  | uniformComponent (record : RecordType)
  | gpuComponentArrayBuffer (record : RecordType)
deriving DecidableEq, Repr

/-- Labels of the extraction systems `build` adds to `ExtractSchedule`. -/
inductive SystemLabel where
  | extractPointLights
  | extractAmbientLights
  | extractCircularOccluders
deriving DecidableEq, Repr

/-- The render sub-app as touched by the plugin: its extract-schedule
systems, its `Core2d` render graph, and its world. -/
structure RenderSubApp where
  extractSystems : List SystemLabel
  graph : RenderGraph
  world : RenderWorld
deriving DecidableEq, Repr

/-- The app as touched by the plugin: loaded internal shader assets, added
sub-plugins, registered types, and the optional render sub-app. -/
structure App where
  loadedShaders : List ShaderHandle
  plugins : List SubPlugin
  registeredTypes : List RegisteredType
  renderApp : Option RenderSubApp
deriving DecidableEq, Repr

/-- Embedding of `Light2dPlugin::build` (`plugin.rs` lines 31–62): loads
the lighting shader, adds the three buffer sub-plugins, registers the three
component types; then, only if the render sub-app exists, adds the three
extraction systems, the lighting render-graph node, and the
`MainPass → LightingPass` edge. -/
def Light2dPlugin.build (app : App) : App :=
  let app1 : App :=
    { app with
      loadedShaders := app.loadedShaders ++ [LIGHTING_SHADER]
      plugins := app.plugins ++
        [ SubPlugin.uniformComponent RecordType.extractedAmbientLight2d,
          SubPlugin.gpuComponentArrayBuffer RecordType.extractedPointLight2d,
          SubPlugin.gpuComponentArrayBuffer RecordType.extractedCircularOccluder2d ]
      registeredTypes := app.registeredTypes ++
        [ RegisteredType.ambientLight2d, RegisteredType.pointLight2d,
          RegisteredType.circularOccluder2d ] }
  match app1.renderApp with
  | none => app1
  | some ra =>
    { app1 with
      renderApp := some
        { ra with
          extractSystems := ra.extractSystems ++
            [ SystemLabel.extractPointLights, SystemLabel.extractAmbientLights,
              SystemLabel.extractCircularOccluders ]
          graph := (ra.graph.addRenderGraphNode
              NodeLabel.lightingPass).addRenderGraphEdge
              NodeLabel.mainPass NodeLabel.lightingPass } }

/-- Embedding of `Light2dPlugin::finish` (`plugin.rs` lines 64–70): if the
render sub-app exists, initialize the `LightingPipeline` resource in its
world; otherwise do nothing. -/
def Light2dPlugin.finish (app : App) : App :=
  match app.renderApp with
  | none => app
  | some ra =>
    { app with
      renderApp := some { ra with world := ra.world.initLightingPipeline } }

/-! ## Theorems settling the claims -/

/-- C1: the lighting bind-group layout declares exactly six resources, in
this fixed order, for every render device: (0) a 2D filterable float color
texture, (1) a filtering sampler, (2) the view uniform block, (3) the
ambient-light uniform block, (4) the point-light array buffer, (5) the
occluder array buffer. -/
theorem lighting_bind_group_layout_order (dev : RenderDevice) :
    (lightingBindGroupLayout dev).entries.length = 6 ∧
    (lightingBindGroupLayout dev).entries.map (fun e => e.binding) =
      [0, 1, 2, 3, 4, 5] ∧
    (∀ e ∈ (lightingBindGroupLayout dev).entries,
      e.visibility = ShaderStages.fragment) ∧
    (lightingBindGroupLayout dev).entries.map (fun e => e.ty) =
      [ BindingType.texture2d (TextureSampleType.float true),
        BindingType.sampler SamplerBindingType.filtering,
        BindingType.uniformBuffer RecordType.viewUniform true,
        BindingType.uniformBuffer RecordType.extractedAmbientLight2d true,
        GpuArrayBuffer.bindingLayout RecordType.extractedPointLight2d dev,
        GpuArrayBuffer.bindingLayout RecordType.extractedCircularOccluder2d dev ] ∧
    BindingType.isArrayBufferFor
      (GpuArrayBuffer.bindingLayout RecordType.extractedPointLight2d dev)
      RecordType.extractedPointLight2d ∧
    BindingType.isArrayBufferFor
      (GpuArrayBuffer.bindingLayout RecordType.extractedCircularOccluder2d dev)
      RecordType.extractedCircularOccluder2d := by
  refine ⟨rfl, rfl, ?_, rfl, ?_, ?_⟩
  · intro e he
    cases dev with
    | mk s =>
      cases s <;> simp [lightingBindGroupLayout, BindGroupLayoutEntries.sequential,
        List.enum, GpuArrayBuffer.bindingLayout] at he <;>
        rcases he with h | h | h | h | h | h <;> subst h <;> rfl
  · cases dev with
    | mk s =>
      cases s <;> simp [GpuArrayBuffer.bindingLayout, BindingType.isArrayBufferFor]
  · cases dev with
    | mk s =>
      cases s <;> simp [GpuArrayBuffer.bindingLayout, BindingType.isArrayBufferFor]

/-- C2: the cached render pipeline descriptor uses the full-screen vertex
stage and the lighting shader's fragment stage with the single lighting
bind-group layout, targets the default display color format, has no
blending with a full color write mask, no depth/stencil state, and default
(single-sample) multisample state. -/
theorem lighting_pipeline_descriptor_spec (dev : RenderDevice) :
    (lightingPipelineDescriptor dev).vertex =
      VertexState.fullscreenShaderVertexState ∧
    (lightingPipelineDescriptor dev).layout = [lightingBindGroupLayout dev] ∧
    (∃ f, (lightingPipelineDescriptor dev).fragment = some f ∧
      f.shader = LIGHTING_SHADER ∧ f.entryPoint = "fragment" ∧
      f.targets = [some
        { format := TextureFormat.bevyDefault
          blend := none
          writeMask := ColorWrites.all }]) ∧
    (lightingPipelineDescriptor dev).depthStencil = none ∧
    (lightingPipelineDescriptor dev).multisample = MultisampleState.default ∧
    (lightingPipelineDescriptor dev).multisample.count = 1 := by
  exact ⟨rfl, rfl, ⟨_, rfl, rfl, rfl, rfl⟩, rfl, rfl, rfl⟩

/-- Helper: initializing the lighting pipeline resource twice equals
initializing it once. -/
theorem initLightingPipeline_idem (w : RenderWorld) :
    w.initLightingPipeline.initLightingPipeline = w.initLightingPipeline := by
  unfold RenderWorld.initLightingPipeline
  cases hw : w.lightingPipeline <;> simp [hw]

/-- C3: resource initialization of the lighting pipeline is idempotent — a
second invocation with nothing changed leaves the world, the cached
resource handle, and the pipeline cache untouched (no recompilation), and
the plugin's `finish`, which performs this initialization, is itself
idempotent. -/
theorem init_lighting_pipeline_idempotent (w : RenderWorld) (app : App) :
    w.initLightingPipeline.initLightingPipeline = w.initLightingPipeline ∧
    w.initLightingPipeline.initLightingPipeline.lightingPipeline =
      w.initLightingPipeline.lightingPipeline ∧
    w.initLightingPipeline.initLightingPipeline.pipelineCache.queued.length =
      w.initLightingPipeline.pipelineCache.queued.length ∧
    Light2dPlugin.finish (Light2dPlugin.finish app) = Light2dPlugin.finish app := by
  have h := initLightingPipeline_idem w
  refine ⟨h, by rw [h], by rw [h], ?_⟩
  unfold Light2dPlugin.finish
  cases ha : app.renderApp with
  | none => simp [ha]
  | some ra => simp [ha, initLightingPipeline_idem]

/-- C4 counterexample: the schedule that runs tonemapping, the
post-processing chain and upscaling before the lighting pass is valid for
the graph the plugin builds — the code orders the lighting pass after the
main pass but adds no edge placing it before any post-processing node. -/
theorem lighting_pass_not_before_post_processing :
    ¬ lightingBeforePostProcessing := by
  intro h
  have hval : light2dCore2dGraph.validSchedule
      [NodeLabel.mainPass, NodeLabel.tonemapping,
        NodeLabel.endMainPassPostProcessing, NodeLabel.upscaling,
        NodeLabel.lightingPass] := by decide
  have := h _ hval NodeLabel.tonemapping (by decide) (by decide)
  exact absurd this (by decide)

/-- C4 (amended): in every valid schedule of the graph the plugin builds,
the lighting pass executes exactly once and after the main pass; no
ordering relative to subsequent post-processing passes is declared. -/
theorem lighting_pass_once_after_main_pass (s : List NodeLabel)
    (h : light2dCore2dGraph.validSchedule s) :
    s.count NodeLabel.lightingPass = 1 ∧
    s.indexOf NodeLabel.mainPass < s.indexOf NodeLabel.lightingPass := by
  obtain ⟨hnd, _, hmem, hedge⟩ := h
  refine ⟨List.count_eq_one_of_mem hnd ?_, ?_⟩
  · exact hmem NodeLabel.lightingPass (by decide)
  · exact hedge (NodeLabel.mainPass, NodeLabel.lightingPass) (by decide)

/-- C4 witness: a concrete valid schedule on which the amended claim holds. -/
theorem lighting_pass_once_after_main_pass_witness :
    light2dCore2dGraph.validSchedule
      [NodeLabel.mainPass, NodeLabel.lightingPass, NodeLabel.tonemapping,
        NodeLabel.endMainPassPostProcessing, NodeLabel.upscaling] ∧
    ([NodeLabel.mainPass, NodeLabel.lightingPass, NodeLabel.tonemapping,
        NodeLabel.endMainPassPostProcessing,
        NodeLabel.upscaling].count NodeLabel.lightingPass = 1 ∧
      [NodeLabel.mainPass, NodeLabel.lightingPass, NodeLabel.tonemapping,
        NodeLabel.endMainPassPostProcessing,
        NodeLabel.upscaling].indexOf NodeLabel.mainPass <
      [NodeLabel.mainPass, NodeLabel.lightingPass, NodeLabel.tonemapping,
        NodeLabel.endMainPassPostProcessing,
        NodeLabel.upscaling].indexOf NodeLabel.lightingPass) :=
  ⟨by decide, lighting_pass_once_after_main_pass _ (by decide)⟩

/-- Helper: the length of a `filterMap` equals the number of elements on
which the function is defined. -/
theorem length_filterMap_eq_length_filter {α β : Type} (f : α → Option β)
    (l : List α) :
    (l.filterMap f).length = (l.filter fun a => (f a).isSome).length := by
  induction l with
  | nil => rfl
  | cons a l ih =>
    cases h : f a <;> simp [List.filterMap_cons, List.filter_cons, h, ih]

/-- C5: each frame the extraction stage produces exactly the three per-kind
outputs — one ambient uniform record, one point-light array with one record
per point-light entity, and one occluder array with one record per occluder
entity — for every scene, whatever the counts. -/
theorem extract_frame_per_kind_outputs (scene : List Entity) :
    extractFrame scene =
      (extract_ambient_lights scene, extract_point_lights scene,
        extract_circular_occluders scene) ∧
    (extract_point_lights scene).length =
      (scene.filter fun e => e.pointLight.isSome).length ∧
    (extract_circular_occluders scene).length =
      (scene.filter fun e => e.circularOccluder.isSome).length := by
  refine ⟨rfl, ?_, ?_⟩
  · rw [extract_point_lights, length_filterMap_eq_length_filter]
    have hp : (fun a : Entity =>
        (Option.map (extractPointLight a.transform) a.pointLight).isSome) =
        fun e : Entity => e.pointLight.isSome := by
      funext e
      cases e.pointLight <;> rfl
    rw [hp]
  · rw [extract_circular_occluders, length_filterMap_eq_length_filter]
    have hp : (fun a : Entity =>
        (Option.map (extractCircularOccluder a.transform)
          a.circularOccluder).isSome) =
        fun e : Entity => e.circularOccluder.isSome := by
      funext e
      cases e.circularOccluder <;> rfl
    rw [hp]

/-- C8: negative radius and negative intensity are clamped to zero at
extraction time, and the records written into the shader-visible buffers
never carry negative radius or intensity. -/
theorem extraction_clamps_negative_fields (t : Vec2) (l : PointLight2d)
    (o : CircularOccluder2d) (a : AmbientLight2d) (scene : List Entity) :
    (l.radius < 0 → (extractPointLight t l).radius = 0) ∧
    (l.intensity < 0 → (extractPointLight t l).intensity = 0) ∧
    (o.radius < 0 → (extractCircularOccluder t o).radius = 0) ∧
    (a.intensity < 0 → (extractAmbientLight a).intensity = 0) ∧
    (∀ rec ∈ extract_point_lights scene, 0 ≤ rec.radius ∧ 0 ≤ rec.intensity) ∧
    (∀ rec ∈ extract_circular_occluders scene, 0 ≤ rec.radius) := by
  refine ⟨fun h => max_eq_left h.le, fun h => max_eq_left h.le,
    fun h => max_eq_left h.le, fun h => max_eq_left h.le, ?_, ?_⟩
  · intro rec hrec
    simp only [extract_point_lights, List.mem_filterMap,
      Option.map_eq_some'] at hrec
    obtain ⟨e, _, l2, _, heq⟩ := hrec
    subst heq
    exact ⟨le_max_left 0 _, le_max_left 0 _⟩
  · intro rec hrec
    simp only [extract_circular_occluders, List.mem_filterMap,
      Option.map_eq_some'] at hrec
    obtain ⟨e, _, o2, _, heq⟩ := hrec
    subst heq
    exact le_max_left 0 _

/-- C8 witness: concrete descriptors with negative intensity and radius are
extracted with those fields clamped to zero. -/
theorem extraction_clamps_negative_fields_witness :
    (extractPointLight ⟨0, 0⟩ ⟨Color.white, -1, -2⟩).radius = 0 ∧
    (extractPointLight ⟨0, 0⟩ ⟨Color.white, -1, -2⟩).intensity = 0 ∧
    (extractCircularOccluder ⟨0, 0⟩ ⟨-3⟩).radius = 0 ∧
    (extractAmbientLight ⟨Color.white, -4⟩).intensity = 0 ∧
    (0 ≤ (extractPointLight ⟨0, 0⟩ ⟨Color.white, -1, -2⟩).radius ∧
      0 ≤ (extractPointLight ⟨0, 0⟩ ⟨Color.white, -1, -2⟩).intensity) :=
  ⟨(extraction_clamps_negative_fields ⟨0, 0⟩ ⟨Color.white, -1, -2⟩ ⟨-3⟩
      ⟨Color.white, -4⟩ []).1 (by norm_num),
   (extraction_clamps_negative_fields ⟨0, 0⟩ ⟨Color.white, -1, -2⟩ ⟨-3⟩
      ⟨Color.white, -4⟩ []).2.1 (by norm_num),
   (extraction_clamps_negative_fields ⟨0, 0⟩ ⟨Color.white, -1, -2⟩ ⟨-3⟩
      ⟨Color.white, -4⟩ []).2.2.1 (by norm_num),
   (extraction_clamps_negative_fields ⟨0, 0⟩ ⟨Color.white, -1, -2⟩ ⟨-3⟩
      ⟨Color.white, -4⟩ []).2.2.2.1 (by norm_num),
   (extraction_clamps_negative_fields ⟨0, 0⟩ ⟨Color.white, -1, -2⟩ ⟨-3⟩
      ⟨Color.white, -4⟩
      [⟨⟨0, 0⟩, none, some ⟨Color.white, -1, -2⟩, none⟩]).2.2.2.2.1
      (extractPointLight ⟨0, 0⟩ ⟨Color.white, -1, -2⟩) (by decide)⟩

/-- Helper: on `[0, radius]` the attenuation is given by its falloff
polynomial (the hard-cutoff branch agrees with it at the boundary). -/
theorem attenuation_eq_falloff {r x : ℝ} (hr : 0 < r) (hx : x ≤ r) :
    attenuation r x = (1 - x ^ 2 / r ^ 2) ^ 2 := by
  rcases lt_or_eq_of_le hx with hlt | heq
  · rw [attenuation, if_neg (not_le.mpr hlt)]
  · subst heq
    rw [attenuation, if_pos le_rfl, div_self (pow_ne_zero 2 hr.ne')]
    norm_num

/-- C6: for every positive radius, the attenuation function of distance is
one at distance zero, zero at every distance at or beyond the radius
(reaching exactly zero at the radius), continuous everywhere, and strictly
decreasing on `[0, radius]`. -/
theorem attenuation_properties (r : ℝ) (hr : 0 < r) :
    attenuation r 0 = 1 ∧
    (∀ d : ℝ, r ≤ d → attenuation r d = 0) ∧
    attenuation r r = 0 ∧
    Continuous (fun d : ℝ => attenuation r d) ∧
    StrictAntiOn (fun d : ℝ => attenuation r d) (Set.Icc 0 r) := by
  refine ⟨?_, ?_, ?_, ?_, ?_⟩
  · rw [attenuation, if_neg (not_le.mpr hr)]
    norm_num
  · intro d hd
    rw [attenuation, if_pos hd]
  · rw [attenuation, if_pos le_rfl]
  · have hcont : Continuous fun d : ℝ =>
        if r ≤ d then (0 : ℝ) else (1 - d ^ 2 / r ^ 2) ^ 2 := by
      refine Continuous.if_le continuous_const
        ((continuous_const.sub ((continuous_pow 2).div_const (r ^ 2))).pow 2)
        continuous_const continuous_id ?_
      intro x hx
      rw [← hx, div_self (pow_ne_zero 2 hr.ne')]
      norm_num
    exact hcont
  · intro a ha b hb hab
    simp only
    rw [attenuation_eq_falloff hr ha.2, attenuation_eq_falloff hr hb.2]
    have h1 : a ^ 2 < b ^ 2 :=
      pow_lt_pow_left hab ha.1 (by norm_num)
    have hr2 : (0 : ℝ) < r ^ 2 := pow_pos hr 2
    have h2 : a ^ 2 / r ^ 2 < b ^ 2 / r ^ 2 := (div_lt_div_right hr2).mpr h1
    have hb2 : b ^ 2 ≤ r ^ 2 := pow_le_pow_left hb.1 hb.2 2
    have h4 : 0 ≤ 1 - b ^ 2 / r ^ 2 := by
      have : b ^ 2 / r ^ 2 ≤ 1 := (div_le_one hr2).mpr hb2
      linarith
    exact pow_lt_pow_left (by linarith) h4 (by norm_num)

/-- C6 witness: the attenuation properties at the concrete radius `2`. -/
theorem attenuation_properties_witness :
    (0 : ℝ) < 2 ∧
    (attenuation (2 : ℝ) 0 = 1 ∧
      (∀ d : ℝ, 2 ≤ d → attenuation (2 : ℝ) d = 0) ∧
      attenuation (2 : ℝ) 2 = 0 ∧
      Continuous (fun d : ℝ => attenuation (2 : ℝ) d) ∧
      StrictAntiOn (fun d : ℝ => attenuation (2 : ℝ) d) (Set.Icc 0 2)) :=
  ⟨by norm_num, attenuation_properties 2 (by norm_num)⟩

/-- The squared-input form the shader evaluates agrees with the attenuation
function of distance on nonnegative distance and radius. -/
theorem attenuationFromSq_eq {α : Type} [LinearOrderedField α] {r d : α}
    (hr : 0 ≤ r) (hd : 0 ≤ d) :
    attenuationFromSq (r ^ 2) (d ^ 2) = attenuation r d := by
  unfold attenuationFromSq attenuation
  by_cases h : r ≤ d
  · rw [if_pos (pow_le_pow_left hr h 2), if_pos h]
  · rw [if_neg (not_le.mpr (pow_lt_pow_left (not_le.mp h) hd (by norm_num))),
      if_neg h]

/-- C7: binary occlusion — if any occluder disc intersects the
light-to-pixel segment, the light's contribution at that pixel is exactly
zero; if no occluder disc intersects the segment, occlusion does not reduce
the contribution at all (it equals the unoccluded contribution). -/
theorem light_contribution_binary_occlusion (light : ExtractedPointLight2d)
    (pixel : Vec2) (occluders : List ExtractedCircularOccluder2d) :
    ((∃ o ∈ occluders,
        segmentDiscIntersects light.position pixel o.position o.radius = true) →
      lightContribution light pixel occluders = Color.black) ∧
    ((∀ o ∈ occluders,
        segmentDiscIntersects light.position pixel o.position o.radius = false) →
      lightContribution light pixel occluders =
        unoccludedContribution light pixel) := by
  constructor
  · rintro ⟨o, ho, hint⟩
    unfold lightContribution
    rw [if_pos (List.any_eq_true.mpr ⟨o, ho, hint⟩)]
  · intro h
    unfold lightContribution
    rw [if_neg]
    intro hany
    obtain ⟨o, ho, hint⟩ := List.any_eq_true.mp hany
    rw [h o ho] at hint
    exact Bool.false_ne_true hint

/-- C7 witness: an occluder of radius one centred on the segment between a
light at the origin and a pixel at distance ten zeroes the contribution,
while the same occluder moved far off the segment leaves the contribution
equal to the unoccluded one. -/
theorem light_contribution_binary_occlusion_witness :
    lightContribution ⟨⟨0, 0⟩, Color.white, 1, 100⟩ ⟨10, 0⟩
      [⟨⟨5, 0⟩, 1⟩] = Color.black ∧
    lightContribution ⟨⟨0, 0⟩, Color.white, 1, 100⟩ ⟨10, 0⟩
      [⟨⟨5, 50⟩, 1⟩] =
      unoccludedContribution ⟨⟨0, 0⟩, Color.white, 1, 100⟩ ⟨10, 0⟩ :=
  ⟨(light_contribution_binary_occlusion ⟨⟨0, 0⟩, Color.white, 1, 100⟩ ⟨10, 0⟩
      [⟨⟨5, 0⟩, 1⟩]).1
      ⟨⟨⟨5, 0⟩, 1⟩, List.mem_singleton.mpr rfl, by
        simp only [segmentDiscIntersects, distSqToSegment, Vec2.sub, Vec2.dot,
          Vec2.add, Vec2.smul, Vec2.distSq, decide_eq_true_eq]
        norm_num [min_def, max_def]⟩,
   (light_contribution_binary_occlusion ⟨⟨0, 0⟩, Color.white, 1, 100⟩ ⟨10, 0⟩
      [⟨⟨5, 50⟩, 1⟩]).2 (by
      intro o ho
      rw [List.mem_singleton] at ho
      subst ho
      simp only [segmentDiscIntersects, distSqToSegment, Vec2.sub, Vec2.dot,
        Vec2.add, Vec2.smul, Vec2.distSq, decide_eq_false_iff_not]
      norm_num [min_def, max_def])⟩

/-- Whether every color component lies in the valid output range `[0, 1]`. -/
def Color.inUnitRange (c : Color) : Prop :=
  0 ≤ c.r ∧ c.r ≤ 1 ∧ 0 ≤ c.g ∧ c.g ≤ 1 ∧ 0 ≤ c.b ∧ c.b ≤ 1

instance (c : Color) : Decidable c.inUnitRange := by
  unfold Color.inUnitRange
  infer_instance

/-- C9: with zero point lights and zero occluders, ambient light
`{color = (1,1,1), intensity = 1}` reproduces the scene color exactly
(multiplicative identity, for scene colors in the valid output range),
while zero ambient intensity yields black at every pixel regardless of the
scene color. -/
theorem shade_pixel_zero_lights (scene : Color) (c : Color) (pixel : Vec2)
    (h : scene.inUnitRange) :
    shadePixel scene ⟨Color.white, 1⟩ [] [] pixel = scene ∧
    shadePixel scene ⟨c, 0⟩ [] [] pixel = Color.black := by
  obtain ⟨h1, h2, h3, h4, h5, h6⟩ := h
  cases scene with
  | mk sr sg sb =>
    constructor
    · simp only [shadePixel, accumulatedLight, List.map_nil, List.foldr_nil,
        Color.smul, Color.white, Color.mul, Color.clamp01, clamp01Q]
      simp only at h1 h2 h3 h4 h5 h6
      congr 1 <;> rw [one_mul, mul_one] <;>
        [rw [min_eq_right h2, max_eq_right h1];
         rw [min_eq_right h4, max_eq_right h3];
         rw [min_eq_right h6, max_eq_right h5]]
    · simp [shadePixel, accumulatedLight, Color.smul, Color.mul,
        Color.clamp01, clamp01Q, Color.black]

/-- C9 witness: the identity case at the concrete scene color
`(1/2, 0, 1)` and the black case at the same scene color with an ambient
record of intensity zero. -/
theorem shade_pixel_zero_lights_witness :
    Color.inUnitRange ⟨1/2, 0, 1⟩ ∧
    (shadePixel ⟨1/2, 0, 1⟩ ⟨Color.white, 1⟩ [] [] ⟨3, 4⟩ = ⟨1/2, 0, 1⟩ ∧
      shadePixel ⟨1/2, 0, 1⟩ ⟨⟨2, 3, 4⟩, 0⟩ [] [] ⟨3, 4⟩ = Color.black) :=
  ⟨by norm_num [Color.inUnitRange],
   shade_pixel_zero_lights ⟨1/2, 0, 1⟩ ⟨2, 3, 4⟩ ⟨3, 4⟩
     (by norm_num [Color.inUnitRange])⟩

/-- C10: when the app has no render sub-app, `build` still performs the
main-app registrations (loads the lighting shader, adds the ambient uniform
and the two array-buffer sub-plugins, registers the three component types)
while leaving the render side absent, and `finish` does nothing. -/
theorem build_finish_without_render_app (app : App)
    (h : app.renderApp = none) :
    Light2dPlugin.build app =
      { loadedShaders := app.loadedShaders ++ [LIGHTING_SHADER]
        plugins := app.plugins ++
          [ SubPlugin.uniformComponent RecordType.extractedAmbientLight2d,
            SubPlugin.gpuComponentArrayBuffer RecordType.extractedPointLight2d,
            SubPlugin.gpuComponentArrayBuffer
              RecordType.extractedCircularOccluder2d ]
        registeredTypes := app.registeredTypes ++
          [ RegisteredType.ambientLight2d, RegisteredType.pointLight2d,
            RegisteredType.circularOccluder2d ]
        renderApp := none } ∧
    Light2dPlugin.finish app = app := by
  constructor
  · unfold Light2dPlugin.build
    simp [h]
  · unfold Light2dPlugin.finish
    simp [h]

/-- C10 witness: `build` and `finish` on the concrete empty app with no
render sub-app. -/
theorem build_finish_without_render_app_witness :
    Light2dPlugin.build ⟨[], [], [], none⟩ =
      { loadedShaders := [] ++ [LIGHTING_SHADER]
        plugins := [] ++
          [ SubPlugin.uniformComponent RecordType.extractedAmbientLight2d,
            SubPlugin.gpuComponentArrayBuffer RecordType.extractedPointLight2d,
            SubPlugin.gpuComponentArrayBuffer
              RecordType.extractedCircularOccluder2d ]
        registeredTypes := [] ++
          [ RegisteredType.ambientLight2d, RegisteredType.pointLight2d,
            RegisteredType.circularOccluder2d ]
        renderApp := none } ∧
    Light2dPlugin.finish ⟨[], [], [], none⟩ = ⟨[], [], [], none⟩ :=
  build_finish_without_render_app ⟨[], [], [], none⟩ rfl
